import Mathlib

/-!
Shallow embedding of `src/task/TaskRunner.ts` (conductor-javascript).

The runner's external collaborators (queue service `poll`/`updateTask1`,
worker `execute`, logger, error callback, timers) are modelled as oracles:
each fallible external call is a function returning `Except ErrVal _`
whose value is supplied per call site. Executing a piece of the runner
produces a finite trace of observable `Event`s together with an
`Except ErrVal Unit` outcome channel recording whether an error escapes
that piece of code uncaught. JavaScript nullish / truthy semantics on
the duck-typed error values are made explicit via `Option String`.
-/

namespace TaskRunner

/-- `const DEFAULT_ERROR_MESSAGE = "An unknown error occurred"` (line 6). -/
def DEFAULT_ERROR_MESSAGE : String := "An unknown error occurred"

/-- `const MAX_RETRIES = 3` (line 7). -/
def MAX_RETRIES : Nat := 3

/-- A duck-typed JavaScript failure value: `message` and `stack` may each be
absent (`none`, i.e. null/undefined) or present (`some s`, possibly empty). -/
structure ErrVal where
  message : Option String
  stack : Option String
deriving Repr, DecidableEq

/-- The part of a `Task` the runner reads: `taskId` and `workflowInstanceId`
are optional fields of the wire type. -/
structure Task where
  taskId : Option String
  workflowInstanceId : Option String
deriving Repr, DecidableEq

/-- Output payload model: a finite string-to-number mapping. -/
def Payload : Type := List (String × Nat)

instance : DecidableEq Payload := by
  unfold Payload
  infer_instance

instance : Repr Payload := by
  unfold Payload
  infer_instance

/-- What `worker.execute(task)` resolves to: a `TaskResult` minus the two
identifier fields (`Omit<TaskResult, "workflowInstanceId" | "taskId">`). -/
structure WorkerResult where
  status : String
  outputData : Payload
  reasonForIncompletion : Option String
deriving Repr, DecidableEq

/-- The `TaskResult` record sent to `taskResource.updateTask1`. The
identifiers come from the task via the non-null assertions `task.taskId!`
and `task.workflowInstanceId!`, which at runtime pass the (possibly
undefined) values through unchanged, hence `Option String` here too. -/
structure TaskResult where
  taskId : Option String
  workflowInstanceId : Option String
  status : String
  outputData : Payload
  reasonForIncompletion : Option String
deriving Repr, DecidableEq

/-- JavaScript truthiness of an optional string: null/undefined and the
empty string are falsy. -/
def jsTruthyStr : Option String → Bool
  | some s => s ≠ ""
  | none => false

/-- JavaScript template-literal interpolation of a possibly-undefined
string (`${x}` prints `undefined` for an absent value). -/
def jsStr : Option String → String
  | some s => s
  | none => "undefined"

/-- Observable events of one runner, in program order: external service
calls, error-callback invocations, log lines, and timer suspensions. -/
inductive Event where
  | pollCall (taskDefName workerID domain : String)
  | execCall (t : Task)
  | updateWithRetry (t : Task) (tr : TaskResult)
  | updateCall (tr : TaskResult)
  | errorCb (e : ErrVal) (t : Option Task)
  | logDebug (s : String)
  | logError (s : String)
  | sleep (ms : Nat)
deriving Repr, DecidableEq

/-- Body of `updateTaskWithRetry`'s `while (retryCount < MAX_RETRIES)` loop
(lines 107-120), recursing on the fuel `MAX_RETRIES - retryCount`; the
oracle `upd n` is the outcome of the attempt made with `retryCount = n`.
When the fuel is exhausted the loop exits and the terminal failure is
logged (lines 121-123). -/
def updateGo (upd : Nat → Except ErrVal Unit) (task : Task)
    (taskResult : TaskResult) : Nat → Nat → List Event
  | retryCount, 0 =>
      [Event.logError ("Unable to update task " ++ jsStr taskResult.taskId ++
        " after " ++ toString retryCount ++ " retries")]
  | retryCount, fuel + 1 =>
      match upd retryCount with
      | .ok _ => [Event.updateCall taskResult]
      | .error e =>
          Event.updateCall taskResult ::
          Event.errorCb e (some task) ::
          Event.logError ("Error updating task " ++ jsStr taskResult.taskId ++
            " on retry " ++ toString retryCount) ::
          Event.sleep ((retryCount + 1) * 10) ::
          updateGo upd task taskResult (retryCount + 1) fuel

/-- `updateTaskWithRetry` (lines 105-124): trace of events plus the outcome
channel, which is `.ok ()` because every throw site (`updateTask1`) sits
inside the loop's `try`/`catch` and the function ends in a plain return. -/
def updateTaskWithRetry (upd : Nat → Except ErrVal Unit) (task : Task)
    (taskResult : TaskResult) : List Event × Except ErrVal Unit :=
  (updateGo upd task taskResult 0 MAX_RETRIES, .ok ())

/-- Number of `updateTask1` delivery attempts recorded in a trace. -/
def countUpdateCalls (evs : List Event) : Nat :=
  evs.countP fun e =>
    match e with
    | Event.updateCall _ => true
    | _ => false

/-- Number of `updateTaskWithRetry` invocations recorded in a trace. -/
def countUpdateWithRetry (evs : List Event) : Nat :=
  evs.countP fun e =>
    match e with
    | Event.updateWithRetry _ _ => true
    | _ => false

/-- Number of `worker.execute` invocations recorded in a trace. -/
def countExecCalls (evs : List Event) : Nat :=
  evs.countP fun e =>
    match e with
    | Event.execCall _ => true
    | _ => false

/-- The result record built on worker success (lines 129-133):
`{...result, workflowInstanceId: task.workflowInstanceId!, taskId: task.taskId!}`. -/
def resultFromWorker (task : Task) (r : WorkerResult) : TaskResult :=
  { taskId := task.taskId
    workflowInstanceId := task.workflowInstanceId
    status := r.status
    outputData := r.outputData
    reasonForIncompletion := r.reasonForIncompletion }

/-- The result record built on worker failure (lines 136-143): status
`"FAILED"`, empty output, and `reasonForIncompletion` from the error's
`message` with the nullish-coalescing fallback
`(error)?.message ?? DEFAULT_ERROR_MESSAGE` (an empty-string message is
kept, since `??` only replaces null/undefined). -/
def failedResult (task : Task) (e : ErrVal) : TaskResult :=
  { taskId := task.taskId
    workflowInstanceId := task.workflowInstanceId
    status := "FAILED"
    outputData := []
    reasonForIncompletion := some (e.message.getD DEFAULT_ERROR_MESSAGE) }

/-- `executeTask` (lines 126-147): runs the worker (oracle `exec`), then in
either branch hands exactly one result record to `updateTaskWithRetry`
(whose per-attempt outcomes come from the oracle `upd`). All throw sites
(`worker.execute`) are inside the `try`, and the `catch` ends without
rethrowing, so the outcome channel is `.ok ()`. -/
def executeTask (exec : Task → Except ErrVal WorkerResult)
    (upd : Nat → Except ErrVal Unit) (task : Task) :
    List Event × Except ErrVal Unit :=
  match exec task with
  | .ok result =>
      let tr := resultFromWorker task result
      (Event.execCall task ::
        Event.updateWithRetry task tr ::
        (updateTaskWithRetry upd task tr).1 ++
        [Event.logDebug ("Finished polling for task " ++ jsStr task.taskId)],
       .ok ())
  | .error e =>
      let tr := failedResult task e
      (Event.execCall task ::
        Event.updateWithRetry task tr ::
        (updateTaskWithRetry upd task tr).1 ++
        [Event.errorCb e (some task),
         Event.logError ("Error executing " ++ jsStr task.taskId)],
       .ok ())

/-- `handleUnknownError` (lines 149-161): defensively extracts `message`
and `stack` (truthy check; falsy values leave the empty-string default)
and emits one structured error log line naming the worker's task-type. -/
def handleUnknownError (taskDefName : String) (e : ErrVal) : List Event :=
  let stack := if jsTruthyStr e.stack then e.stack.getD "" else ""
  let message := if jsTruthyStr e.message then e.message.getD "" else ""
  [Event.logError ("Error for " ++ taskDefName ++ ": error: " ++ message ++
    ", stack: " ++ stack)]

/-- Per-runner configuration (`Required<TaskManagerOptions>` as read by the
runner): poll interval, routing domain, worker ID. -/
structure Config where
  pollInterval : Nat
  domain : String
  workerID : String
deriving Repr, DecidableEq

/-- Oracle for one poll-loop iteration: the outcome of the queue-service
`poll` call, of the worker `execute` call, and of each `updateTask1`
attempt made during this iteration. -/
structure IterOracle where
  pollRes : Except ErrVal (Option Task)
  execRes : Task → Except ErrVal WorkerResult
  updRes : Nat → Except ErrVal Unit

/-- The `try` block of one `poll` iteration (lines 82-93): fetch a task;
if `task && task.taskId` is truthy, run `executeTask`, else log at debug
level. The outcome channel is `.error e` exactly when the fetch raised
`e` (nothing else in the block can throw uncaught). -/
def pollTryBlock (cfg : Config) (taskDefName : String) (o : IterOracle) :
    List Event × Except ErrVal Unit :=
  let pc := Event.pollCall taskDefName cfg.workerID cfg.domain
  match o.pollRes with
  | .error e => ([pc], .error e)
  | .ok none => ([pc, Event.logDebug ("No tasks for " ++ taskDefName)], .ok ())
  | .ok (some task) =>
      if jsTruthyStr task.taskId then
        let r := executeTask o.execRes o.updRes task
        (pc :: r.1, r.2)
      else
        ([pc, Event.logDebug ("No tasks for " ++ taskDefName)], .ok ())

/-- One full iteration of the `while (this.isPolling)` loop (lines 81-102):
the `try` block, then the `catch` (lines 94-97) routing any escaped error
through `handleUnknownError` and the error callback, then the
poll-interval sleep (lines 99-101). The iteration itself never raises. -/
def pollIteration (cfg : Config) (taskDefName : String) (o : IterOracle) :
    List Event × Except ErrVal Unit :=
  let r := pollTryBlock cfg taskDefName o
  let evs :=
    match r.2 with
    | .ok _ => r.1
    | .error e => r.1 ++ handleUnknownError taskDefName e ++ [Event.errorCb e none]
  (evs ++ [Event.sleep cfg.pollInterval], .ok ())

/-- The `poll` loop (lines 80-103) over a finite schedule of iterations:
the list of oracles supplies one entry per iteration during which
`isPolling` is observed true; the loop ends when the flag is observed
false (the list is exhausted). -/
def pollLoop (cfg : Config) (taskDefName : String) :
    List IterOracle → List Event × Except ErrVal Unit
  | [] => ([], .ok ())
  | o :: os =>
      let r := pollIteration cfg taskDefName o
      let rest := pollLoop cfg taskDefName os
      (r.1 ++ rest.1, rest.2)

/-- `startPolling` (lines 65-72): from state `isPolling`, either throw
`"Runner is already started"` (leaving the flag untouched) or set the flag
and begin the poll loop, returning the new flag value and the loop's
trace for the given iteration schedule. -/
def startPolling (isPolling : Bool) (cfg : Config) (taskDefName : String)
    (os : List IterOracle) : Except ErrVal (Bool × List Event) :=
  if isPolling then
    .error { message := some "Runner is already started", stack := none }
  else
    .ok (true, (pollLoop cfg taskDefName os).1)

/-- `stopPolling` (lines 76-78): unconditionally clear the flag. -/
def stopPolling (_isPolling : Bool) : Bool := false

/-! ## Helper lemmas -/

lemma updateGo_countUpdateCalls_le (upd : Nat → Except ErrVal Unit)
    (task : Task) (tr : TaskResult) :
    ∀ fuel rc, countUpdateCalls (updateGo upd task tr rc fuel) ≤ fuel := by
  intro fuel
  induction fuel with
  | zero => intro rc; simp [updateGo, countUpdateCalls]
  | succ n ih =>
      intro rc
      cases h : upd rc with
      | ok u => simp [updateGo, h, countUpdateCalls]
      | error e =>
          have hle := ih (rc + 1)
          simp only [updateGo, h] at hle ⊢
          simp [countUpdateCalls, List.countP_cons] at hle ⊢
          omega

lemma updateGo_no_updateWithRetry (upd : Nat → Except ErrVal Unit)
    (task : Task) (tr : TaskResult) (t : Task) (r : TaskResult) :
    ∀ fuel rc, Event.updateWithRetry t r ∉ updateGo upd task tr rc fuel := by
  intro fuel
  induction fuel with
  | zero => intro rc; simp [updateGo]
  | succ n ih =>
      intro rc
      cases h : upd rc with
      | ok u => simp [updateGo, h]
      | error e => simp [updateGo, h, ih (rc + 1)]

lemma updateGo_no_execCall (upd : Nat → Except ErrVal Unit)
    (task : Task) (tr : TaskResult) (t : Task) :
    ∀ fuel rc, Event.execCall t ∉ updateGo upd task tr rc fuel := by
  intro fuel
  induction fuel with
  | zero => intro rc; simp [updateGo]
  | succ n ih =>
      intro rc
      cases h : upd rc with
      | ok u => simp [updateGo, h]
      | error e => simp [updateGo, h, ih (rc + 1)]

lemma countUpdateWithRetry_updateGo (upd : Nat → Except ErrVal Unit)
    (task : Task) (tr : TaskResult) (fuel rc : Nat) :
    countUpdateWithRetry (updateGo upd task tr rc fuel) = 0 := by
  rw [countUpdateWithRetry, List.countP_eq_zero]
  intro a ha
  cases a with
  | updateWithRetry t r => exact absurd ha (updateGo_no_updateWithRetry upd task tr t r fuel rc)
  | _ => simp

lemma countExecCalls_updateGo (upd : Nat → Except ErrVal Unit)
    (task : Task) (tr : TaskResult) (fuel rc : Nat) :
    countExecCalls (updateGo upd task tr rc fuel) = 0 := by
  rw [countExecCalls, List.countP_eq_zero]
  intro a ha
  cases a with
  | execCall t => exact absurd ha (updateGo_no_execCall upd task tr t fuel rc)
  | _ => simp

lemma pollLoop_ok (cfg : Config) (taskDefName : String) :
    ∀ os : List IterOracle, (pollLoop cfg taskDefName os).2 = .ok () := by
  intro os
  induction os with
  | nil => rfl
  | cons o os ih => simp [pollLoop, ih]

/-! ## Claims -/

/-- C2: `updateTaskWithRetry` makes at most `MAX_RETRIES = 3` delivery
attempts; when all three attempts fail with errors `e0, e1, e2`, the trace
is exactly: for each attempt an `updateTask1` call, the error callback with
`(error, task)`, a log line naming the attempt number, and a sleep of
`attemptIndex × 10` time units (10, 20, 30); then the terminal failure log,
after which the function returns with no further escalation. -/
theorem updateTaskWithRetry_retry_policy (upd : Nat → Except ErrVal Unit)
    (task : Task) (tr : TaskResult) :
    countUpdateCalls (updateTaskWithRetry upd task tr).1 ≤ MAX_RETRIES ∧
    (∀ e0 e1 e2 : ErrVal, upd 0 = .error e0 → upd 1 = .error e1 →
      upd 2 = .error e2 →
      (updateTaskWithRetry upd task tr).1 =
        [Event.updateCall tr,
         Event.errorCb e0 (some task),
         Event.logError ("Error updating task " ++ jsStr tr.taskId ++
           " on retry " ++ toString (0 : Nat)),
         Event.sleep 10,
         Event.updateCall tr,
         Event.errorCb e1 (some task),
         Event.logError ("Error updating task " ++ jsStr tr.taskId ++
           " on retry " ++ toString (1 : Nat)),
         Event.sleep 20,
         Event.updateCall tr,
         Event.errorCb e2 (some task),
         Event.logError ("Error updating task " ++ jsStr tr.taskId ++
           " on retry " ++ toString (2 : Nat)),
         Event.sleep 30,
         Event.logError ("Unable to update task " ++ jsStr tr.taskId ++
           " after " ++ toString (3 : Nat) ++ " retries")]) := by
  constructor
  · exact updateGo_countUpdateCalls_le upd task tr MAX_RETRIES 0
  · intro e0 e1 e2 h0 h1 h2
    simp [updateTaskWithRetry, MAX_RETRIES, updateGo, h0, h1, h2]

/-- Witness for C2 at a concrete all-failing oracle. -/
theorem updateTaskWithRetry_retry_policy_witness :
    countUpdateCalls
      (updateTaskWithRetry (fun _ => .error ⟨some "netdown", none⟩)
        ⟨some "t1", some "w1"⟩
        ⟨some "t1", some "w1", "COMPLETED", [], none⟩).1 ≤ MAX_RETRIES ∧
    (updateTaskWithRetry (fun _ => .error ⟨some "netdown", none⟩)
        ⟨some "t1", some "w1"⟩
        ⟨some "t1", some "w1", "COMPLETED", [], none⟩).1 =
      [Event.updateCall ⟨some "t1", some "w1", "COMPLETED", [], none⟩,
       Event.errorCb ⟨some "netdown", none⟩ (some ⟨some "t1", some "w1"⟩),
       Event.logError ("Error updating task t1 on retry " ++ toString (0 : Nat)),
       Event.sleep 10,
       Event.updateCall ⟨some "t1", some "w1", "COMPLETED", [], none⟩,
       Event.errorCb ⟨some "netdown", none⟩ (some ⟨some "t1", some "w1"⟩),
       Event.logError ("Error updating task t1 on retry " ++ toString (1 : Nat)),
       Event.sleep 20,
       Event.updateCall ⟨some "t1", some "w1", "COMPLETED", [], none⟩,
       Event.errorCb ⟨some "netdown", none⟩ (some ⟨some "t1", some "w1"⟩),
       Event.logError ("Error updating task t1 on retry " ++ toString (2 : Nat)),
       Event.sleep 30,
       Event.logError ("Unable to update task t1 after " ++
         toString (3 : Nat) ++ " retries")] := by
  have h := updateTaskWithRetry_retry_policy
    (fun _ => .error ⟨some "netdown", none⟩)
    ⟨some "t1", some "w1"⟩
    ⟨some "t1", some "w1", "COMPLETED", [], none⟩
  refine ⟨h.1, ?_⟩
  have := h.2 ⟨some "netdown", none⟩ ⟨some "netdown", none⟩ ⟨some "netdown", none⟩
    rfl rfl rfl
  simpa [jsStr] using this

/-- C8: `updateTaskWithRetry` returns normally in all cases — every
per-attempt outcome oracle yields outcome channel `.ok ()`, never an
escaping error. -/
theorem updateTaskWithRetry_never_raises (upd : Nat → Except ErrVal Unit)
    (task : Task) (tr : TaskResult) :
    (updateTaskWithRetry upd task tr).2 = .ok () := rfl

/-- C3: every `executeTask` invocation calls the worker exactly once and
makes exactly one `updateTaskWithRetry` invocation, whatever the worker
outcome; and the result record of that invocation carries the task's
`taskId` and `workflowInstanceId`. -/
theorem executeTask_exactly_one_update
    (exec : Task → Except ErrVal WorkerResult) (upd : Nat → Except ErrVal Unit)
    (task : Task) :
    countExecCalls (executeTask exec upd task).1 = 1 ∧
    countUpdateWithRetry (executeTask exec upd task).1 = 1 ∧
    (∀ t r, Event.updateWithRetry t r ∈ (executeTask exec upd task).1 →
      t = task ∧ r.taskId = task.taskId ∧
      r.workflowInstanceId = task.workflowInstanceId) := by
  refine ⟨?_, ?_, ?_⟩
  · cases h : exec task with
    | ok result =>
        have h0 := countExecCalls_updateGo upd task
          (resultFromWorker task result) MAX_RETRIES 0
        simp [executeTask, h, updateTaskWithRetry] at h0 ⊢
        simp [countExecCalls, List.countP_cons, List.countP_append] at h0 ⊢
        exact h0
    | error e =>
        have h0 := countExecCalls_updateGo upd task
          (failedResult task e) MAX_RETRIES 0
        simp [executeTask, h, updateTaskWithRetry] at h0 ⊢
        simp [countExecCalls, List.countP_cons, List.countP_append] at h0 ⊢
        exact h0
  · cases h : exec task with
    | ok result =>
        have h0 := countUpdateWithRetry_updateGo upd task
          (resultFromWorker task result) MAX_RETRIES 0
        simp [executeTask, h, updateTaskWithRetry] at h0 ⊢
        simp [countUpdateWithRetry, List.countP_cons, List.countP_append] at h0 ⊢
        exact h0
    | error e =>
        have h0 := countUpdateWithRetry_updateGo upd task
          (failedResult task e) MAX_RETRIES 0
        simp [executeTask, h, updateTaskWithRetry] at h0 ⊢
        simp [countUpdateWithRetry, List.countP_cons, List.countP_append] at h0 ⊢
        exact h0
  · intro t r hmem
    cases h : exec task with
    | ok result =>
        simp [executeTask, h, updateTaskWithRetry] at hmem
        rcases hmem with ⟨ht, hr⟩ | hin
        · subst ht; subst hr
          simp [resultFromWorker]
        · exact absurd hin
            (updateGo_no_updateWithRetry upd task
              (resultFromWorker task result) t r MAX_RETRIES 0)
    | error e =>
        simp [executeTask, h, updateTaskWithRetry] at hmem
        rcases hmem with ⟨ht, hr⟩ | hin
        · subst ht; subst hr
          simp [failedResult]
        · exact absurd hin
            (updateGo_no_updateWithRetry upd task
              (failedResult task e) t r MAX_RETRIES 0)

/-- Witness for C3 at a concrete worker and oracle. -/
theorem executeTask_exactly_one_update_witness :
    countExecCalls
      (executeTask (fun _ => .ok ⟨"COMPLETED", [("x", 1)], none⟩)
        (fun _ => .ok ()) ⟨some "t1", some "w1"⟩).1 = 1 ∧
    countUpdateWithRetry
      (executeTask (fun _ => .ok ⟨"COMPLETED", [("x", 1)], none⟩)
        (fun _ => .ok ()) ⟨some "t1", some "w1"⟩).1 = 1 ∧
    (⟨some "t1", some "w1", "COMPLETED", [("x", 1)], none⟩ : TaskResult).taskId =
      (⟨some "t1", some "w1"⟩ : Task).taskId := by
  have h := executeTask_exactly_one_update
    (fun _ => .ok ⟨"COMPLETED", [("x", 1)], none⟩)
    (fun _ => .ok ()) ⟨some "t1", some "w1"⟩
  refine ⟨h.1, h.2.1, ?_⟩
  have hm : Event.updateWithRetry ⟨some "t1", some "w1"⟩
      ⟨some "t1", some "w1", "COMPLETED", [("x", 1)], none⟩ ∈
      (executeTask (fun _ => .ok ⟨"COMPLETED", [("x", 1)], none⟩)
        (fun _ => .ok ()) ⟨some "t1", some "w1"⟩).1 := by
    simp [executeTask, updateTaskWithRetry, resultFromWorker]
  exact (h.2.2 _ _ hm).2.1

/-- C4: when the worker raises `e`, the result record handed to the update
path carries the task's identifiers, status `"FAILED"`, empty output, and
`reasonForIncompletion` equal to the error's message when present, else
the fixed default message. -/
theorem executeTask_failure_result
    (exec : Task → Except ErrVal WorkerResult) (upd : Nat → Except ErrVal Unit)
    (task : Task) (e : ErrVal) (h : exec task = .error e) :
    Event.updateWithRetry task
      { taskId := task.taskId
        workflowInstanceId := task.workflowInstanceId
        status := "FAILED"
        outputData := []
        reasonForIncompletion :=
          some (match e.message with
                | some m => m
                | none => DEFAULT_ERROR_MESSAGE) } ∈
      (executeTask exec upd task).1 := by
  cases hm : e.message <;>
    simp [executeTask, h, failedResult, Option.getD, hm]

/-- Witness for C4: worker raises message `"boom"` on task `t1`/`w1`. -/
theorem executeTask_failure_result_witness :
    Event.updateWithRetry ⟨some "t1", some "w1"⟩
      ⟨some "t1", some "w1", "FAILED", [], some "boom"⟩ ∈
      (executeTask (fun _ => .error ⟨some "boom", none⟩)
        (fun _ => .ok ()) ⟨some "t1", some "w1"⟩).1 := by
  have h := executeTask_failure_result
    (fun _ => .error ⟨some "boom", none⟩) (fun _ => .ok ())
    ⟨some "t1", some "w1"⟩ ⟨some "boom", none⟩ rfl
  simpa using h

/-- C5: when the worker resolves successfully, the result record handed to
the update path carries the worker's returned status and output payload
(and reason field) together with the task's identifiers. -/
theorem executeTask_success_result
    (exec : Task → Except ErrVal WorkerResult) (upd : Nat → Except ErrVal Unit)
    (task : Task) (r : WorkerResult) (h : exec task = .ok r) :
    Event.updateWithRetry task
      { taskId := task.taskId
        workflowInstanceId := task.workflowInstanceId
        status := r.status
        outputData := r.outputData
        reasonForIncompletion := r.reasonForIncompletion } ∈
      (executeTask exec upd task).1 := by
  simp [executeTask, h, resultFromWorker]

/-- Witness for C5: worker resolves `status "COMPLETED"`, output `x = 1`. -/
theorem executeTask_success_result_witness :
    Event.updateWithRetry ⟨some "t1", some "w1"⟩
      ⟨some "t1", some "w1", "COMPLETED", [("x", 1)], none⟩ ∈
      (executeTask (fun _ => .ok ⟨"COMPLETED", [("x", 1)], none⟩)
        (fun _ => .ok ()) ⟨some "t1", some "w1"⟩).1 := by
  have h := executeTask_success_result
    (fun _ => .ok ⟨"COMPLETED", [("x", 1)], none⟩) (fun _ => .ok ())
    ⟨some "t1", some "w1"⟩ ⟨"COMPLETED", [("x", 1)], none⟩ rfl
  simpa using h

/-- C10: when the worker raises an error whose `message` is present but
empty, the failed result keeps the empty string as
`reasonForIncompletion` — the default message applies only to an absent
(null/undefined) `message`, since `??` does not replace `""`. -/
theorem executeTask_empty_message_kept
    (exec : Task → Except ErrVal WorkerResult) (upd : Nat → Except ErrVal Unit)
    (task : Task) (e : ErrVal) (h : exec task = .error e)
    (hm : e.message = some "") :
    Event.updateWithRetry task
      { taskId := task.taskId
        workflowInstanceId := task.workflowInstanceId
        status := "FAILED"
        outputData := []
        reasonForIncompletion := some "" } ∈
      (executeTask exec upd task).1 ∧
    (some "" : Option String) ≠ some DEFAULT_ERROR_MESSAGE := by
  constructor
  · simp [executeTask, h, failedResult, hm]
  · simp [DEFAULT_ERROR_MESSAGE]

/-- Witness for C10: worker raises with `message: ""` on task `t1`/`w1`. -/
theorem executeTask_empty_message_kept_witness :
    Event.updateWithRetry ⟨some "t1", some "w1"⟩
      ⟨some "t1", some "w1", "FAILED", [], some ""⟩ ∈
      (executeTask (fun _ => .error ⟨some "", none⟩)
        (fun _ => .ok ()) ⟨some "t1", some "w1"⟩).1 := by
  have h := executeTask_empty_message_kept
    (fun _ => .error ⟨some "", none⟩) (fun _ => .ok ())
    ⟨some "t1", some "w1"⟩ ⟨some "", none⟩ rfl rfl
  exact h.1

/-- C7: in a poll iteration where the queue returns no task (or a task
whose identifier is falsy), the worker is never executed; the iteration
emits only the poll call, one debug-level log line, and the poll-interval
sleep before the next cycle. -/
theorem pollIteration_no_task (cfg : Config) (name : String) (o : IterOracle)
    (h : o.pollRes = .ok none ∨
      ∃ task, o.pollRes = .ok (some task) ∧ jsTruthyStr task.taskId = false) :
    countExecCalls (pollIteration cfg name o).1 = 0 ∧
    (pollIteration cfg name o).1 =
      [Event.pollCall name cfg.workerID cfg.domain,
       Event.logDebug ("No tasks for " ++ name),
       Event.sleep cfg.pollInterval] := by
  rcases h with h | ⟨task, h, ht⟩
  · constructor <;> simp [pollIteration, pollTryBlock, h, countExecCalls]
  · constructor <;> simp [pollIteration, pollTryBlock, h, ht, countExecCalls]

/-- Witness for C7: the queue returns no task. -/
theorem pollIteration_no_task_witness :
    countExecCalls
      (pollIteration ⟨100, "d", "wid"⟩ "w"
        ⟨.ok none, fun _ => .error ⟨none, none⟩, fun _ => .ok ()⟩).1 = 0 ∧
    (pollIteration ⟨100, "d", "wid"⟩ "w"
        ⟨.ok none, fun _ => .error ⟨none, none⟩, fun _ => .ok ()⟩).1 =
      [Event.pollCall "w" "wid" "d",
       Event.logDebug ("No tasks for " ++ "w"),
       Event.sleep 100] :=
  pollIteration_no_task ⟨100, "d", "wid"⟩ "w"
    ⟨.ok none, fun _ => .error ⟨none, none⟩, fun _ => .ok ()⟩ (Or.inl rfl)

lemma truthyExtract_eq_getD (o : Option String) :
    (if jsTruthyStr o then o.getD "" else "") = o.getD "" := by
  cases o with
  | none => simp [jsTruthyStr]
  | some s => by_cases hs : s = "" <;> simp [jsTruthyStr, hs]

/-- C9: `handleUnknownError` accepts any failure value, defaults an absent
(or falsy) `message`/`stack` to the empty string, and logs exactly one
structured error line naming the worker's task-type, raising no secondary
failure (it is a total function). -/
theorem handleUnknownError_defensive (name : String) (e : ErrVal) :
    (handleUnknownError name e).length = 1 ∧
    handleUnknownError name e =
      [Event.logError ("Error for " ++ name ++ ": error: " ++
        e.message.getD "" ++ ", stack: " ++ e.stack.getD "")] := by
  refine ⟨rfl, ?_⟩
  simp [handleUnknownError, truthyExtract_eq_getD]

/-- C1: every iteration of the poll loop ends without an escaping error
(outcome `.ok ()`) and closes with the poll-interval sleep; a fetch error
`e` is routed through `handleUnknownError` and the error callback instead
of propagating; and the loop proceeds: running `n + 1` scheduled
iterations is the first iteration's trace followed by the remaining
iterations' trace, again with outcome `.ok ()`. -/
theorem pollLoop_error_isolation (cfg : Config) (name : String)
    (o : IterOracle) (os : List IterOracle) :
    (pollIteration cfg name o).2 = .ok () ∧
    (∃ pre, (pollIteration cfg name o).1 = pre ++ [Event.sleep cfg.pollInterval]) ∧
    (∀ e : ErrVal, o.pollRes = .error e →
      (pollIteration cfg name o).1 =
        Event.pollCall name cfg.workerID cfg.domain ::
        (handleUnknownError name e ++
          [Event.errorCb e none, Event.sleep cfg.pollInterval])) ∧
    pollLoop cfg name (o :: os) =
      ((pollIteration cfg name o).1 ++ (pollLoop cfg name os).1, .ok ()) := by
  refine ⟨rfl, ⟨_, rfl⟩, ?_, ?_⟩
  · intro e he
    simp [pollIteration, pollTryBlock, he]
  · have hok := pollLoop_ok cfg name os
    simp [pollLoop, hok]

/-- Witness for C1: a concrete iteration whose fetch fails with message
`"boom"`; the error is funneled and the iteration still ends in the sleep. -/
theorem pollLoop_error_isolation_witness :
    (pollIteration ⟨5, "d", "wid"⟩ "w"
      ⟨.error ⟨some "boom", some "st"⟩, fun _ => .error ⟨none, none⟩,
        fun _ => .ok ()⟩).1 =
      Event.pollCall "w" "wid" "d" ::
      (handleUnknownError "w" ⟨some "boom", some "st"⟩ ++
        [Event.errorCb ⟨some "boom", some "st"⟩ none, Event.sleep 5]) :=
  (pollLoop_error_isolation ⟨5, "d", "wid"⟩ "w"
    ⟨.error ⟨some "boom", some "st"⟩, fun _ => .error ⟨none, none⟩,
      fun _ => .ok ()⟩ []).2.2.1 ⟨some "boom", some "st"⟩ rfl

/-- C6: `startPolling` while already polling fails with the
`"Runner is already started"` error (the throw happens before the flag
assignment, so no state is produced or changed); from the stopped state —
in particular right after a `stopPolling` — it sets the flag and begins
the poll loop. -/
theorem startPolling_state_machine (b : Bool) (cfg : Config) (name : String)
    (os : List IterOracle) :
    (b = true → startPolling b cfg name os =
      .error { message := some "Runner is already started", stack := none }) ∧
    (b = false → startPolling b cfg name os =
      .ok (true, (pollLoop cfg name os).1)) ∧
    startPolling (stopPolling b) cfg name os =
      .ok (true, (pollLoop cfg name os).1) := by
  refine ⟨?_, ?_, rfl⟩
  · intro hb; subst hb; rfl
  · intro hb; subst hb; rfl

/-- Witness for C6: starting while already polling, and starting after a
stop, at concrete inputs. -/
theorem startPolling_state_machine_witness :
    startPolling true ⟨5, "d", "wid"⟩ "w" [] =
      .error { message := some "Runner is already started", stack := none } ∧
    startPolling (stopPolling true) ⟨5, "d", "wid"⟩ "w" [] =
      .ok (true, (pollLoop ⟨5, "d", "wid"⟩ "w" []).1) :=
  ⟨(startPolling_state_machine true ⟨5, "d", "wid"⟩ "w" []).1 rfl,
   (startPolling_state_machine true ⟨5, "d", "wid"⟩ "w" []).2.2⟩

end TaskRunner
